import Mathlib

/-!
Verification of the criterion and impurity-combination engine of the
hypertree repository (files `_semisupervised_criterion.pyx` and
`_nd_criterion.pyx`).  Real numbers (C doubles) are modelled as rationals,
array-valued state as functions over natural-number indices, and fallible
C-level routines as integer status codes or `Except` values, exactly
following the control flow of the source.
-/

/-- Error kinds raised by axis-parameterised methods.  `invalidAxis` models
raising the `InvalidAxisError` class of `_nd_criterion.pyx`;
`noneDereference` models the Cython behaviour of reading an attribute of a
`cdef` local that was never assigned (it stays `None`), which faults instead
of raising `InvalidAxisError`. -/
inductive CritError where
  | invalidAxis : CritError
  | noneDereference : CritError
deriving DecidableEq

/-- Configuration errors raised at construction time. -/
inductive ConfigError where
  | supervisionOutOfRange : ConfigError
  | missingCriteria : ConfigError
  | missingShapeSupervised : ConfigError
  | missingShapeUnsupervised : ConfigError
  | unsupervisedNotSingleOutput : ConfigError
  | mismatchedAxisTypes : ConfigError
  | unreachableBranch : ConfigError
deriving DecidableEq

/-- Weight lookup: the source keeps `wi = wj = 1.0` when the weight array is
absent (`None`) and reads the array entry otherwise. -/
def wOf (w : Option (ℕ → ℚ)) (i : ℕ) : ℚ :=
  match w with
  | none => 1
  | some f => f i

/-- Modelled from the spec (section 4.1): the state of one external 1D
sklearn criterion as the composite criterion observes it.  The source treats
these sub-criteria as black boxes: it reads `node_impurity()`,
`n_outputs`, the `weighted_n_*` statistics and the integer status codes of
`reset` / `reverse_reset` / `update`, and `update(new_pos)` sets the
sub-criterion cursor `pos` to `new_pos` exactly when it does not fail. -/
structure Criterion where
  pos : ℕ
  n_outputs : ℕ
  node_impurity : ℚ
  weighted_n_node_samples : ℚ
  weighted_n_samples : ℚ
  weighted_n_left : ℚ
  weighted_n_right : ℚ
  reset_code : ℤ
  reverse_reset_code : ℤ
  update_code : ℕ → ℤ

/-- Modelled from the spec (section 4.2): the improvement formula of the
external base criterion, `(weighted_n_node/weighted_n_total) *
(parent - wr/wn*right - wl/wn*left)`, reused verbatim by both
sub-criteria. -/
def Criterion.impurity_improvement (c : Criterion)
    (impurity_parent impurity_left impurity_right : ℚ) : ℚ :=
  c.weighted_n_node_samples / c.weighted_n_samples *
    (impurity_parent
      - c.weighted_n_right / c.weighted_n_node_samples * impurity_right
      - c.weighted_n_left / c.weighted_n_node_samples * impurity_left)

/-- Modelled from the spec (section 4.1): `update(new_pos)` returns the
status code and advances the sub-criterion cursor on success. -/
def Criterion.update (c : Criterion) (new_pos : ℕ) : ℤ × Criterion :=
  (c.update_code new_pos,
    if c.update_code new_pos = -1 then c else { c with pos := new_pos })

/-- State of `SSCompositeCriterion`
(`_semisupervised_criterion.pyx`, lines 27-277): a supervision weight and
the two owned sub-criteria, plus the composite cursor `pos`. -/
structure SSCompositeCriterion where
  supervision : ℚ
  supervised_criterion : Criterion
  unsupervised_criterion : Criterion
  pos : ℕ

/-- `SSCompositeCriterion.node_impurity` (lines 193-204):
`sup * supervised.node_impurity() + (1-sup) * unsupervised.node_impurity()`. -/
def SSCompositeCriterion.node_impurity (c : SSCompositeCriterion) : ℚ :=
  c.supervision * c.supervised_criterion.node_impurity
    + (1 - c.supervision) * c.unsupervised_criterion.node_impurity

/-- `SSCompositeCriterion.reset` (lines 160-166): forwards to the supervised
criterion, then (if that did not fail) to the unsupervised one. -/
def SSCompositeCriterion.reset (c : SSCompositeCriterion) : ℤ :=
  if c.supervised_criterion.reset_code = -1 then -1
  else if c.unsupervised_criterion.reset_code = -1 then -1
  else 0

/-- `SSCompositeCriterion.reverse_reset` (lines 168-174). -/
def SSCompositeCriterion.reverse_reset (c : SSCompositeCriterion) : ℤ :=
  if c.supervised_criterion.reverse_reset_code = -1 then -1
  else if c.unsupervised_criterion.reverse_reset_code = -1 then -1
  else 0

/-- `SSCompositeCriterion.update` (lines 176-191): forwards `update` to the
supervised criterion, returns -1 on its failure; then forwards to the
unsupervised criterion, returns -1 on its failure; only then assigns
`self.pos = new_pos` and returns 0. -/
def SSCompositeCriterion.update (c : SSCompositeCriterion) (new_pos : ℕ) :
    ℤ × SSCompositeCriterion :=
  let rs := c.supervised_criterion.update new_pos
  let c1 := { c with supervised_criterion := rs.2 }
  if rs.1 = -1 then (-1, c1)
  else
    let ru := c1.unsupervised_criterion.update new_pos
    let c2 := { c1 with unsupervised_criterion := ru.2 }
    if ru.1 = -1 then (-1, c2)
    else (0, { c2 with pos := new_pos })

/-- `SSCompositeCriterion.impurity_improvement` (lines 265-277): each
sub-criterion computes its improvement from the same parent/left/right
impurities; results are blended by the supervision weight. -/
def SSCompositeCriterion.impurity_improvement (c : SSCompositeCriterion)
    (impurity_parent impurity_left impurity_right : ℚ) : ℚ :=
  c.supervision * c.supervised_criterion.impurity_improvement
      impurity_parent impurity_left impurity_right
    + (1 - c.supervision) * c.unsupervised_criterion.impurity_improvement
      impurity_parent impurity_left impurity_right

/-- Claim C1: for every `SSCompositeCriterion` with supervision weight in
`[0,1]`, `node_impurity()` is exactly the blend
`sup * supervised_impurity + (1-sup) * unsupervised_impurity`; at `sup = 0`
it equals the unsupervised node impurity and at `sup = 1` the supervised
one. -/
theorem C1_node_impurity_blend (c : SSCompositeCriterion)
    (h0 : 0 ≤ c.supervision) (h1 : c.supervision ≤ 1) :
    c.node_impurity
        = c.supervision * c.supervised_criterion.node_impurity
          + (1 - c.supervision) * c.unsupervised_criterion.node_impurity
      ∧ (c.supervision = 0 →
          c.node_impurity = c.unsupervised_criterion.node_impurity)
      ∧ (c.supervision = 1 →
          c.node_impurity = c.supervised_criterion.node_impurity) := by
  refine ⟨rfl, ?_, ?_⟩
  · intro h
    simp [SSCompositeCriterion.node_impurity, h]
  · intro h
    simp [SSCompositeCriterion.node_impurity, h]

/-- A concrete sub-criterion used by witnesses. -/
def critA : Criterion :=
  { pos := 0
    n_outputs := 1
    node_impurity := 7
    weighted_n_node_samples := 4
    weighted_n_samples := 10
    weighted_n_left := 1
    weighted_n_right := 3
    reset_code := 0
    reverse_reset_code := 0
    update_code := fun p => if p ≤ 4 then 0 else -1 }

/-- A second concrete sub-criterion used by witnesses; its `update` always
fails. -/
def critB : Criterion :=
  { pos := 0
    n_outputs := 2
    node_impurity := 3
    weighted_n_node_samples := 4
    weighted_n_samples := 10
    weighted_n_left := 2
    weighted_n_right := 2
    reset_code := 0
    reverse_reset_code := -1
    update_code := fun _ => -1 }

/-- A concrete composite criterion used by witnesses. -/
def ssEx : SSCompositeCriterion :=
  { supervision := 1/4
    supervised_criterion := critA
    unsupervised_criterion := critA
    pos := 0 }

/-- Witness for C1 at a concrete state. -/
theorem C1_node_impurity_blend_witness :
    (0 : ℚ) ≤ ssEx.supervision ∧ ssEx.supervision ≤ 1 ∧
      ssEx.node_impurity
        = ssEx.supervision * ssEx.supervised_criterion.node_impurity
          + (1 - ssEx.supervision) * ssEx.unsupervised_criterion.node_impurity :=
  ⟨by norm_num [ssEx], by norm_num [ssEx],
    (C1_node_impurity_blend ssEx (by norm_num [ssEx]) (by norm_num [ssEx])).1⟩

/-- Claim C7: `reset`, `reverse_reset` and `update` are forwarded to both
sub-criteria; assuming each sub-criterion call returns one of the sklearn
status codes 0 (success) or -1 (failure), the composite call returns 0
exactly when both sub-criteria succeed and -1 exactly when either fails. -/
theorem C7_forwarding_codes (c : SSCompositeCriterion) (new_pos : ℕ)
    (hrs : c.supervised_criterion.reset_code = 0
      ∨ c.supervised_criterion.reset_code = -1)
    (hru : c.unsupervised_criterion.reset_code = 0
      ∨ c.unsupervised_criterion.reset_code = -1)
    (hvs : c.supervised_criterion.reverse_reset_code = 0
      ∨ c.supervised_criterion.reverse_reset_code = -1)
    (hvu : c.unsupervised_criterion.reverse_reset_code = 0
      ∨ c.unsupervised_criterion.reverse_reset_code = -1)
    (hus : c.supervised_criterion.update_code new_pos = 0
      ∨ c.supervised_criterion.update_code new_pos = -1)
    (huu : c.unsupervised_criterion.update_code new_pos = 0
      ∨ c.unsupervised_criterion.update_code new_pos = -1) :
    (c.reset = 0 ↔
        c.supervised_criterion.reset_code = 0
          ∧ c.unsupervised_criterion.reset_code = 0)
      ∧ (c.reset = -1 ↔
        c.supervised_criterion.reset_code = -1
          ∨ c.unsupervised_criterion.reset_code = -1)
      ∧ (c.reverse_reset = 0 ↔
        c.supervised_criterion.reverse_reset_code = 0
          ∧ c.unsupervised_criterion.reverse_reset_code = 0)
      ∧ (c.reverse_reset = -1 ↔
        c.supervised_criterion.reverse_reset_code = -1
          ∨ c.unsupervised_criterion.reverse_reset_code = -1)
      ∧ ((c.update new_pos).1 = 0 ↔
        c.supervised_criterion.update_code new_pos = 0
          ∧ c.unsupervised_criterion.update_code new_pos = 0)
      ∧ ((c.update new_pos).1 = -1 ↔
        c.supervised_criterion.update_code new_pos = -1
          ∨ c.unsupervised_criterion.update_code new_pos = -1) := by
  unfold SSCompositeCriterion.reset SSCompositeCriterion.reverse_reset
    SSCompositeCriterion.update Criterion.update
  rcases hrs with h1 | h1 <;> rcases hru with h2 | h2 <;>
    rcases hvs with h3 | h3 <;> rcases hvu with h4 | h4 <;>
    rcases hus with h5 | h5 <;> rcases huu with h6 | h6 <;>
    simp [h1, h2, h3, h4, h5, h6]

/-- A composite criterion whose unsupervised side fails every `update`. -/
def ssExFail : SSCompositeCriterion :=
  { supervision := 1/4
    supervised_criterion := critA
    unsupervised_criterion := critB
    pos := 0 }

/-- Witness for C7 at a concrete state: supervised reset succeeds while the
unsupervised update fails, so the composite reset returns 0 and the
composite update returns -1. -/
theorem C7_forwarding_codes_witness :
    ssExFail.reset = 0 ∧ (ssExFail.update 2).1 = -1 := by
  have h := C7_forwarding_codes ssExFail 2
    (by norm_num [ssExFail, critA]) (by norm_num [ssExFail, critB])
    (by norm_num [ssExFail, critA]) (by norm_num [ssExFail, critB])
    (by norm_num [ssExFail, critA]) (by norm_num [ssExFail, critB])
  refine ⟨h.1.mpr ?_, h.2.2.2.2.2.mpr ?_⟩
  · exact ⟨by norm_num [ssExFail, critA], by norm_num [ssExFail, critB]⟩
  · exact Or.inr (by norm_num [ssExFail, critB])

/-- Claim C9: `SSCompositeCriterion.update(new_pos)` assigns the composite
cursor `pos` only when both sub-criteria succeed; on every failure path the
composite `pos` is left unchanged, even though on the path where the
supervised update succeeded and the unsupervised one failed the supervised
sub-criterion has already advanced to `new_pos`. -/
theorem C9_update_pos_atomic (c : SSCompositeCriterion) (new_pos : ℕ) :
    ((c.update new_pos).1 = -1 → (c.update new_pos).2.pos = c.pos)
      ∧ ((c.update new_pos).1 = 0 → (c.update new_pos).2.pos = new_pos)
      ∧ (c.supervised_criterion.update_code new_pos ≠ -1 →
          c.unsupervised_criterion.update_code new_pos = -1 →
          (c.update new_pos).1 = -1
            ∧ (c.update new_pos).2.pos = c.pos
            ∧ (c.update new_pos).2.supervised_criterion.pos = new_pos) := by
  unfold SSCompositeCriterion.update Criterion.update
  by_cases h1 : c.supervised_criterion.update_code new_pos = -1 <;>
    by_cases h2 : c.unsupervised_criterion.update_code new_pos = -1 <;>
    simp [h1, h2]

/-- Witness for C9: on `ssExFail` the supervised update to position 2
succeeds but the unsupervised one fails, so the composite update returns -1,
the composite cursor stays at 0, and the supervised sub-criterion cursor has
moved to 2. -/
theorem C9_update_pos_atomic_witness :
    (ssExFail.update 2).1 = -1
      ∧ (ssExFail.update 2).2.pos = ssExFail.pos
      ∧ (ssExFail.update 2).2.supervised_criterion.pos = 2 :=
  (C9_update_pos_atomic ssExFail 2).2.2
    (by norm_num [ssExFail, critA]) (by norm_num [ssExFail, critB])

/-- Modelled from the spec (sections 4.1 and 4.3): the node impurity the
external sklearn MSE criterion computes when `set_feature` re-initialises
the unsupervised sub-criterion on one column: the variance form
`sq_sum/weighted_n - (sum/weighted_n)^2` of the column over the node range
`[start, end)` of `samples`, with optional sample weights. -/
def mseColumnNodeImpurity (yCol : ℕ → ℚ) (w : Option (ℕ → ℚ))
    (samples : ℕ → ℕ) (start stop : ℕ) : ℚ :=
  let idx := List.range' start (stop - start)
  let wn := (idx.map (fun p => wOf w (samples p))).sum
  let s := (idx.map (fun p => wOf w (samples p) * yCol (samples p))).sum
  let sq := (idx.map
    (fun p => wOf w (samples p) * yCol (samples p) * yCol (samples p))).sum
  sq / wn - (s / wn) ^ 2

/-- State of `SingleFeatureSSCompositeCriterion`
(`_semisupervised_criterion.pyx`, lines 310-373): the composite state plus
the full feature matrix, the node range data needed to re-initialise the
unsupervised sub-criterion, the current feature column, and the cached
`current_node_impurity`. -/
structure SingleFeatureSSCompositeCriterion extends SSCompositeCriterion where
  full_X : ℕ → ℕ → ℚ
  sample_weight : Option (ℕ → ℚ)
  samples : ℕ → ℕ
  start : ℕ
  stop : ℕ
  current_feature : ℕ
  current_node_impurity : ℚ

/-- `SingleFeatureSSCompositeCriterion.set_feature` (lines 343-356): rebinds
the unsupervised target to column `new_feature` of the full feature matrix,
re-initialises the unsupervised sub-criterion over the current node range,
and caches `current_node_impurity = node_impurity()`. -/
def SingleFeatureSSCompositeCriterion.set_feature
    (c : SingleFeatureSSCompositeCriterion) (new_feature : ℕ) :
    SingleFeatureSSCompositeCriterion :=
  let uImp := mseColumnNodeImpurity (fun i => c.full_X i new_feature)
    c.sample_weight c.samples c.start c.stop
  let ss := { c.toSSCompositeCriterion with
    unsupervised_criterion :=
      { c.unsupervised_criterion with node_impurity := uImp } }
  { c with
    toSSCompositeCriterion := ss
    current_feature := new_feature
    current_node_impurity := ss.node_impurity }

/-- `SingleFeatureSSCompositeCriterion.impurity_improvement`
(lines 358-367): calls `SSCompositeCriterion.impurity_improvement` with the
cached `current_node_impurity` in place of the `impurity_parent`
argument. -/
def SingleFeatureSSCompositeCriterion.impurity_improvement
    (c : SingleFeatureSSCompositeCriterion)
    (impurity_parent impurity_left impurity_right : ℚ) : ℚ :=
  c.toSSCompositeCriterion.impurity_improvement
    c.current_node_impurity impurity_left impurity_right

/-- Claim C5: after `set_feature(k)`, `impurity_improvement` ignores the
passed parent impurity: it returns the composite improvement evaluated with
the cached `current_node_impurity` (just recomputed over the node range with
feature column `k`) as the parent, so for fixed left/right impurities the
result is identical for every value of the parent argument. -/
theorem C5_parent_impurity_ignored
    (c : SingleFeatureSSCompositeCriterion) (k : ℕ)
    (parent₁ parent₂ left right : ℚ) :
    ((c.set_feature k).impurity_improvement parent₁ left right
        = (c.set_feature k).toSSCompositeCriterion.impurity_improvement
            (c.set_feature k).current_node_impurity left right)
      ∧ ((c.set_feature k).impurity_improvement parent₁ left right
        = (c.set_feature k).impurity_improvement parent₂ left right)
      ∧ ((c.set_feature k).current_node_impurity
        = (c.set_feature k).toSSCompositeCriterion.node_impurity)
      ∧ ((c.set_feature k).unsupervised_criterion.node_impurity
        = mseColumnNodeImpurity (fun i => c.full_X i k)
            c.sample_weight c.samples c.start c.stop) :=
  ⟨rfl, rfl, rfl, rfl⟩

/-- State of `MSE_Wrapper2DSS` (`_semisupervised_criterion.pyx`, lines
467-687) as its impurity methods read it: the two per-axis composite
criteria held by the child splitters, plus the value of
`MSE_Wrapper2D.node_impurity(self)`.

The field `mse_wrapper2d_node_impurity` is modelled from the spec:
`MSE_Wrapper2D` lives in a module revision not present in the sources and
the spec describes its node impurity only as the plain
(non-semi-supervised) supervised impurity `s` of the node, so it is kept
abstract here. -/
structure MSE_Wrapper2DSS where
  criterion_rows : SSCompositeCriterion
  criterion_cols : SSCompositeCriterion
  mse_wrapper2d_node_impurity : ℚ

/-- `MSE_Wrapper2DSS.ss_impurity` (lines 501-532): blends the two axes
unsupervised impurities with weights `n_ax_features * (1-sup_ax) /
n_features` and adds the supervised impurity scaled by
`(sup_rows + sup_cols) / 2`. -/
def MSE_Wrapper2DSS.ss_impurity (w : MSE_Wrapper2DSS)
    (u_imp_rows u_imp_cols s_imp : ℚ) : ℚ :=
  let sup_rows := w.criterion_rows.supervision
  let sup_cols := w.criterion_cols.supervision
  let n_row_features := w.criterion_rows.unsupervised_criterion.n_outputs
  let n_col_features := w.criterion_cols.unsupervised_criterion.n_outputs
  let n_features := n_row_features + n_col_features
  let wur := (n_row_features : ℚ) * (1 - sup_rows) / (n_features : ℚ)
  let wuc := (n_col_features : ℚ) * (1 - sup_cols) / (n_features : ℚ)
  let u_imp := wur * u_imp_rows + wuc * u_imp_cols
  let s_imp2 := s_imp * (sup_rows + sup_cols)
  u_imp + s_imp2 / 2

/-- `MSE_Wrapper2DSS._node_impurity` (lines 535-556): reads the two axes
unsupervised node impurities and the plain supervised impurity
`MSE_Wrapper2D.node_impurity(self)` and combines them with
`ss_impurity`. -/
def MSE_Wrapper2DSS._node_impurity (w : MSE_Wrapper2DSS) : ℚ :=
  w.ss_impurity
    w.criterion_rows.unsupervised_criterion.node_impurity
    w.criterion_cols.unsupervised_criterion.node_impurity
    w.mse_wrapper2d_node_impurity

/-- Claim C3: for every `MSE_Wrapper2DSS` node, `node_impurity()` returns
`u + s*(sup_r+sup_c)/2` with
`u = (n_r*(1-sup_r)*u_rows + n_c*(1-sup_c)*u_cols) / (n_r+n_c)`, where
`n_r`, `n_c` are the axes unsupervised output counts, `sup_r`, `sup_c` the
supervision weights, `u_rows`, `u_cols` the axes unsupervised node
impurities and `s` the plain supervised node impurity. -/
theorem C3_wrapper_node_impurity (w : MSE_Wrapper2DSS) :
    w._node_impurity
      = ((w.criterion_rows.unsupervised_criterion.n_outputs : ℚ)
            * (1 - w.criterion_rows.supervision)
            * w.criterion_rows.unsupervised_criterion.node_impurity
          + (w.criterion_cols.unsupervised_criterion.n_outputs : ℚ)
            * (1 - w.criterion_cols.supervision)
            * w.criterion_cols.unsupervised_criterion.node_impurity)
          / ((w.criterion_rows.unsupervised_criterion.n_outputs : ℚ)
            + (w.criterion_cols.unsupervised_criterion.n_outputs : ℚ))
        + w.mse_wrapper2d_node_impurity
          * (w.criterion_rows.supervision + w.criterion_cols.supervision)
          / 2 := by
  unfold MSE_Wrapper2DSS._node_impurity MSE_Wrapper2DSS.ss_impurity
  push_cast
  ring

/-- State of `RegressionCriterionGSO` (`_nd_criterion.pyx`, lines 62-312) as
its `impurity_improvement` reads it: the two owned 1D axis criteria and the
per-axis weighted totals. -/
structure RegressionCriterionGSO where
  criterion_rows : Criterion
  criterion_cols : Criterion
  weighted_n_rows : ℚ
  weighted_n_cols : ℚ
  weighted_n_node_rows : ℚ
  weighted_n_node_cols : ℚ

/-- `RegressionCriterionGSO._get_criterion` (lines 305-312): axis 0 selects
the rows criterion, axis 1 the columns criterion, anything else raises
`InvalidAxisError`.  `FriedmanGSO` and `SquaredErrorGSO` inherit this
method. -/
def RegressionCriterionGSO._get_criterion (g : RegressionCriterionGSO)
    (axis : ℕ) : Except CritError Criterion :=
  if axis = 0 then .ok g.criterion_rows
  else if axis = 1 then .ok g.criterion_cols
  else .error .invalidAxis

/-- `RegressionCriterionGSO.impurity_improvement` (lines 286-303): the
underlying 1D axis criterion improvement, multiplied by
`weighted_n_node_cols / weighted_n_cols` for axis 0 and by
`weighted_n_node_rows / weighted_n_rows` for axis 1.  `SquaredErrorGSO`
inherits this method unchanged. -/
def RegressionCriterionGSO.impurity_improvement (g : RegressionCriterionGSO)
    (impurity_parent impurity_left impurity_right : ℚ) (axis : ℕ) :
    Except CritError ℚ :=
  (g._get_criterion axis).map fun crit =>
    let imp := crit.impurity_improvement
      impurity_parent impurity_left impurity_right
    if axis = 0 then imp * g.weighted_n_node_cols / g.weighted_n_cols
    else imp * g.weighted_n_node_rows / g.weighted_n_rows

/-- `FriedmanGSO.impurity_improvement` (lines 417-435): the underlying 1D
axis criterion improvement, divided by `weighted_n_node_cols` for axis 0 and
by `weighted_n_node_rows` for axis 1. -/
def FriedmanGSO.impurity_improvement (g : RegressionCriterionGSO)
    (impurity_parent impurity_left impurity_right : ℚ) (axis : ℕ) :
    Except CritError ℚ :=
  (g._get_criterion axis).map fun crit =>
    let imp := crit.impurity_improvement
      impurity_parent impurity_left impurity_right
    if axis = 0 then imp / g.weighted_n_node_cols
    else imp / g.weighted_n_node_rows

/-- A concrete GSO state used by the C4 counterexample and C6. -/
def gsoEx : RegressionCriterionGSO :=
  { criterion_rows :=
      { critA with
        weighted_n_node_samples := 1, weighted_n_samples := 1
        weighted_n_left := 0, weighted_n_right := 0 }
    criterion_cols := critA
    weighted_n_rows := 5
    weighted_n_cols := 5
    weighted_n_node_rows := 2
    weighted_n_node_cols := 2 }

/-- Counterexample to claim C4 as stated: the claim says `FriedmanGSO`
returns the underlying 1D improvement unscaled, but on `gsoEx` (whose rows
criterion yields improvement 1 at parent 1, children 0) `FriedmanGSO`
returns `1/2` for axis 0 because it divides by `weighted_n_node_cols = 2`. -/
theorem C4_counterexample :
    FriedmanGSO.impurity_improvement gsoEx 1 0 0 0
        = .ok (1 / 2)
      ∧ gsoEx.criterion_rows.impurity_improvement 1 0 0 = 1
      ∧ FriedmanGSO.impurity_improvement gsoEx 1 0 0 0
        ≠ .ok (gsoEx.criterion_rows.impurity_improvement 1 0 0) := by
  refine ⟨?_, ?_, ?_⟩
  · norm_num [FriedmanGSO.impurity_improvement,
      RegressionCriterionGSO._get_criterion, Criterion.impurity_improvement,
      gsoEx, critA, Except.map]
  · norm_num [Criterion.impurity_improvement, gsoEx, critA]
  · norm_num [FriedmanGSO.impurity_improvement,
      RegressionCriterionGSO._get_criterion, Criterion.impurity_improvement,
      gsoEx, critA, Except.map]

/-- Claim C4 amended: for every state and parent/left/right impurities,
`SquaredErrorGSO` (via `RegressionCriterionGSO`) returns the underlying 1D
axis criterion improvement multiplied by
`weighted_n_node_<other axis> / weighted_n_<other axis>`, while
`FriedmanGSO` returns that same underlying improvement divided by
`weighted_n_node_<other axis>` (not the unscaled improvement). -/
theorem C4_friedman_vs_squared_error (g : RegressionCriterionGSO)
    (parent left right : ℚ) :
    (g.impurity_improvement parent left right 0
        = .ok (g.criterion_rows.impurity_improvement parent left right
            * g.weighted_n_node_cols / g.weighted_n_cols))
      ∧ (g.impurity_improvement parent left right 1
        = .ok (g.criterion_cols.impurity_improvement parent left right
            * g.weighted_n_node_rows / g.weighted_n_rows))
      ∧ (FriedmanGSO.impurity_improvement g parent left right 0
        = .ok (g.criterion_rows.impurity_improvement parent left right
            / g.weighted_n_node_cols))
      ∧ (FriedmanGSO.impurity_improvement g parent left right 1
        = .ok (g.criterion_cols.impurity_improvement parent left right
            / g.weighted_n_node_rows)) :=
  ⟨rfl, rfl, rfl, rfl⟩

/-- Modelled attributes of an `AxisCriterion` instance
(`_axis_criterion.pyx` is external to the analysed sources): the shape
attributes and classification flag `GMO.__init__` reads. -/
structure AxisCriterion where
  n_samples : ℕ
  n_outputs : ℕ
  is_classification : Bool
  max_n_classes : ℕ

/-- Result of a successful `GMO.__init__` (`_nd_criterion.pyx`, lines
472-499). -/
structure GMOInitResult where
  n_rows : ℕ
  n_cols : ℕ
  n_outputs_rows : ℕ
  n_outputs_cols : ℕ
  max_n_classes : ℕ
  n_outputs : ℕ
deriving DecidableEq

/-- `GMO.__init__` (lines 472-499): records the shapes; if `criterion_rows`
is an `AxisClassificationCriterion` it requires `criterion_cols` to be one
too (raising `TypeError` otherwise) and takes `max_n_classes` from the
columns criterion; otherwise it sets `max_n_classes = 1` without inspecting
`criterion_cols`. -/
def GMO.construct (criterion_rows criterion_cols : AxisCriterion) :
    Except ConfigError GMOInitResult :=
  let base : GMOInitResult :=
    { n_rows := criterion_rows.n_samples
      n_cols := criterion_cols.n_samples
      n_outputs_rows := criterion_rows.n_outputs
      n_outputs_cols := criterion_cols.n_outputs
      max_n_classes := 1
      n_outputs := criterion_rows.n_outputs + criterion_cols.n_outputs }
  if criterion_rows.is_classification then
    if ¬ criterion_cols.is_classification then
      .error .mismatchedAxisTypes
    else
      .ok { base with max_n_classes := criterion_cols.max_n_classes }
  else
    .ok base

/-- A concrete classification axis criterion. -/
def axisClf : AxisCriterion :=
  { n_samples := 2, n_outputs := 1, is_classification := true
    max_n_classes := 3 }

/-- A concrete regression (non-classification) axis criterion. -/
def axisReg : AxisCriterion :=
  { n_samples := 2, n_outputs := 1, is_classification := false
    max_n_classes := 1 }

/-- Claim C8 evaluated on the code: with a classification rows criterion and
a regression columns criterion `GMO.__init__` raises, but with the roles
swapped (only the columns criterion is classification) it succeeds with
`max_n_classes = 1`, contradicting the claim that every mixed pair is
rejected. -/
theorem C8_one_sided_check :
    GMO.construct axisClf axisReg = .error .mismatchedAxisTypes
      ∧ GMO.construct axisReg axisClf
        = .ok { n_rows := 2, n_cols := 2, n_outputs_rows := 1
                n_outputs_cols := 1, max_n_classes := 1, n_outputs := 2 } := by
  constructor <;> rfl

/-- State of `GMO` (`_nd_criterion.pyx`, lines 438-622) as its
axis-parameterised methods read it: the two owned axis criteria.  `GMOSA`
inherits these methods. -/
structure GMO where
  criterion_rows : AxisCriterion
  criterion_cols : AxisCriterion

/-- `GMO._get_criterion` (lines 615-622): axis 0 selects the rows criterion,
axis 1 the columns criterion, anything else raises `InvalidAxisError`. -/
def GMO._get_criterion (g : GMO) (axis : ℕ) : Except CritError AxisCriterion :=
  if axis = 0 then .ok g.criterion_rows
  else if axis = 1 then .ok g.criterion_cols
  else .error .invalidAxis

/-- `MSE_Wrapper2DSS._get_criterion`
(`_semisupervised_criterion.pyx`, lines 558-566): two `if` branches assign
the local for axis 1 and axis 0 and there is no `else`; for any other axis
the `cdef` local `ss_criterion` is still `None` when its
`supervised_criterion` attribute is read, which faults instead of raising
`InvalidAxisError`. -/
def MSE_Wrapper2DSS._get_criterion (w : MSE_Wrapper2DSS) (axis : ℕ) :
    Except CritError Criterion :=
  if axis = 1 then .ok w.criterion_cols.supervised_criterion
  else if axis = 0 then .ok w.criterion_rows.supervised_criterion
  else .error .noneDereference

/-- Claim C6 evaluated on the code: `RegressionCriterionGSO._get_criterion`
(inherited by `SquaredErrorGSO` and `FriedmanGSO`) and `GMO._get_criterion`
raise `InvalidAxisError` for axis 2, and so do the `children_impurity` and
`impurity_improvement` paths built on them, but
`MSE_Wrapper2DSS._get_criterion` does not: it falls through both axis
branches and dereferences an unset local instead of raising the
invalid-axis error. -/
theorem C6_invalid_axis (g : RegressionCriterionGSO) (m : GMO)
    (w : MSE_Wrapper2DSS) (parent left right : ℚ) :
    g._get_criterion 2 = .error .invalidAxis
      ∧ g.impurity_improvement parent left right 2 = .error .invalidAxis
      ∧ FriedmanGSO.impurity_improvement g parent left right 2
        = .error .invalidAxis
      ∧ m._get_criterion 2 = .error .invalidAxis
      ∧ w._get_criterion 2 = .error .noneDereference
      ∧ CritError.noneDereference ≠ CritError.invalidAxis :=
  ⟨rfl, rfl, rfl, rfl, rfl, by decide⟩

/-- A criterion argument of the `SSCompositeCriterion` constructor:
`None`, a criterion class, or an already-built instance with its shape. -/
inductive CriterionArg where
  | missing : CriterionArg
  | cls : CriterionArg
  | inst : ℕ → ℕ → CriterionArg
deriving DecidableEq

/-- Python `a or b` on criterion arguments: `None` is the only falsy
value. -/
def CriterionArg.orElse (a b : CriterionArg) : CriterionArg :=
  match a with
  | .missing => b
  | _ => a

/-- Shape of an instantiated sub-criterion. -/
structure CriterionShape where
  n_outputs : ℕ
  n_samples : ℕ
deriving DecidableEq

/-- Attributes `SSCompositeCriterion.__init__` stores on success. -/
structure SSConstructResult where
  supervision : ℚ
  supervised_shape : CriterionShape
  unsupervised_shape : CriterionShape
  n_outputs : ℕ
  n_samples : ℕ
  n_features : ℕ
deriving DecidableEq

/-- Resolve one criterion argument to an instantiated shape, mirroring the
`isinstance(..., type)` branches of `SSCompositeCriterion.__init__`: a class
is instantiated with the given shape after checking both numbers are
nonzero (Python truthiness); an instance is kept as is.  The `missing` case
is unreachable after the `criterion is None` guard. -/
def CriterionArg.resolve (a : CriterionArg) (clsOutputs clsSamples : ℕ)
    (e : ConfigError) : Except ConfigError CriterionShape :=
  match a with
  | .cls =>
      if clsOutputs = 0 ∨ clsSamples = 0 then .error e
      else .ok ⟨clsOutputs, clsSamples⟩
  | .inst o s => .ok ⟨o, s⟩
  | .missing => .error .unreachableBranch

/-- `SSCompositeCriterion.__init__`
(`_semisupervised_criterion.pyx`, lines 61-108): validates the supervision
weight, requires both sub-criteria when no shared criterion is given,
instantiates class arguments (the supervised one with `n_outputs`,
`n_samples`; the unsupervised one with `n_outputs = n_features`,
`n_samples`), and stores `n_outputs`/`n_samples` from the supervised
criterion and `n_features` from the unsupervised criterion output count. -/
def SSCompositeCriterion.construct (supervision : ℚ)
    (n_outputs n_features n_samples : ℕ)
    (criterion supervised_criterion unsupervised_criterion : CriterionArg) :
    Except ConfigError SSConstructResult :=
  if ¬ (0 ≤ supervision ∧ supervision ≤ 1) then
    .error .supervisionOutOfRange
  else if criterion = .missing ∧ (supervised_criterion = .missing
      ∨ unsupervised_criterion = .missing) then
    .error .missingCriteria
  else
    let sc := supervised_criterion.orElse criterion
    let uc := unsupervised_criterion.orElse criterion
    match sc.resolve n_outputs n_samples .missingShapeSupervised with
    | .error e => .error e
    | .ok sShape =>
      match uc.resolve n_features n_samples .missingShapeUnsupervised with
      | .error e => .error e
      | .ok uShape =>
        .ok { supervision := supervision
              supervised_shape := sShape
              unsupervised_shape := uShape
              n_outputs := sShape.n_outputs
              n_samples := sShape.n_samples
              n_features := uShape.n_outputs }

/-- `SingleFeatureSSCompositeCriterion.__init__` (lines 310-341): a warning
is emitted when `n_features != 1`, the base constructor is called with
`n_features = 1`, and afterwards a single-output check on the unsupervised
criterion may raise.  The boolean in the result records whether the warning
was emitted. -/
def SingleFeatureSSCompositeCriterion.construct (supervision : ℚ)
    (criterion supervised_criterion unsupervised_criterion : CriterionArg)
    (n_outputs n_features n_samples : ℕ) :
    Except ConfigError (Bool × SSConstructResult) :=
  let warned : Bool := n_features != 1
  match SSCompositeCriterion.construct supervision n_outputs 1 n_samples
      criterion supervised_criterion unsupervised_criterion with
  | .error e => .error e
  | .ok r =>
      if r.unsupervised_shape.n_outputs ≠ 1 then
        .error .unsupervisedNotSingleOutput
      else .ok (warned, r)

/-- Claim C10: with a class-based shared criterion and otherwise valid
arguments, constructing a `SingleFeatureSSCompositeCriterion` succeeds for
every value of `n_features`; the warning is emitted exactly when
`n_features != 1`, and the unsupervised sub-criterion is always instantiated
with exactly one output. -/
theorem C10_n_features_coerced (supervision : ℚ)
    (n_outputs n_features n_samples : ℕ)
    (h0 : 0 ≤ supervision) (h1 : supervision ≤ 1)
    (ho : n_outputs ≠ 0) (hs : n_samples ≠ 0) :
    SingleFeatureSSCompositeCriterion.construct supervision
        .cls .missing .missing n_outputs n_features n_samples
      = .ok ((n_features != 1),
          { supervision := supervision
            supervised_shape := ⟨n_outputs, n_samples⟩
            unsupervised_shape := ⟨1, n_samples⟩
            n_outputs := n_outputs
            n_samples := n_samples
            n_features := 1 }) := by
  unfold SingleFeatureSSCompositeCriterion.construct
    SSCompositeCriterion.construct CriterionArg.orElse CriterionArg.resolve
  simp [h0, h1, ho, hs]

/-- Witness for C10 at `n_features = 5`: construction succeeds, the warning
fires, and the unsupervised shape has a single output. -/
theorem C10_n_features_coerced_witness :
    SingleFeatureSSCompositeCriterion.construct (1/2)
        .cls .missing .missing 1 5 10
      = .ok (true,
          { supervision := 1/2
            supervised_shape := ⟨1, 10⟩
            unsupervised_shape := ⟨1, 10⟩
            n_outputs := 1
            n_samples := 10
            n_features := 1 }) :=
  C10_n_features_coerced (1/2) 1 5 10 (by norm_num) (by norm_num)
    (by norm_num) (by norm_num)
/-- The node statistics `RegressionCriterionGSO.init`
(`_nd_criterion.pyx`, lines 119-249) computes for a node rectangle: the
marginal sum arrays `y_row_sums` / `y_col_sums` (indexed by entity), the
grand totals, and the weighted node sizes. -/
structure GSOInitState where
  y_row_sums : ℕ → ℚ
  y_col_sums : ℕ → ℚ
  sum_total : ℚ
  sq_sum_total : ℚ
  weighted_n_node_rows : ℚ
  weighted_n_node_cols : ℚ
  weighted_n_node_samples : ℚ

/-- Body of the inner (column) loop of `RegressionCriterionGSO.init`
(lines 196-213), for the fixed row entity `i` with row weight `wi`: resets
`y_col_sums[j]` on the first row, accumulates `weighted_n_node_cols` on the
first row when column weights are present, then accumulates the marginal
sums and the totals. -/
def gsoInnerStep (y : ℕ → ℕ → ℚ) (col_indices : ℕ → ℕ)
    (col_weights : Option (ℕ → ℚ)) (i : ℕ) (wi : ℚ) (is_first_row : Bool)
    (s : GSOInitState) (q : ℕ) : GSOInitState :=
  let j := col_indices q
  let s1 := if is_first_row then
    { s with y_col_sums := Function.update s.y_col_sums j 0 } else s
  let wj := wOf col_weights j
  let s2 := if is_first_row && col_weights.isSome then
    { s1 with weighted_n_node_cols := s1.weighted_n_node_cols + wj } else s1
  let y_ij := y i j
  let w_y_ij := wi * wj * y_ij
  { s2 with
    y_row_sums := Function.update s2.y_row_sums i (s2.y_row_sums i + wj * y_ij)
    y_col_sums := Function.update s2.y_col_sums j (s2.y_col_sums j + wi * y_ij)
    sum_total := s2.sum_total + w_y_ij
    sq_sum_total := s2.sq_sum_total + w_y_ij * y_ij }

/-- Body of the outer (row) loop of `RegressionCriterionGSO.init`
(lines 188-216): resets `y_row_sums[i]`, accumulates
`weighted_n_node_rows` when row weights are present, and runs the column
loop; `is_first_row` holds exactly on the first processed row
`p = start_row`. -/
def gsoOuterStep (y : ℕ → ℕ → ℚ) (row_indices col_indices : ℕ → ℕ)
    (row_weights col_weights : Option (ℕ → ℚ))
    (start_col n_cols start_row : ℕ) (s : GSOInitState) (p : ℕ) :
    GSOInitState :=
  let i := row_indices p
  let s1 := { s with y_row_sums := Function.update s.y_row_sums i 0 }
  let wi := wOf row_weights i
  let s2 := if row_weights.isSome then
    { s1 with weighted_n_node_rows := s1.weighted_n_node_rows + wi } else s1
  (List.range' start_col n_cols).foldl
    (gsoInnerStep y col_indices col_weights i wi (p == start_row)) s2

/-- `RegressionCriterionGSO.init` (lines 119-249), restricted to the node
statistics it computes: starting from zeroed sums (the `np.empty` arrays
are modelled as zero since every node-range entry is overwritten before
use) and with `weighted_n_node_rows/cols` preset to the plain node lengths
when the weight arrays are absent, it runs the double loop over the node
rectangle and finally sets
`weighted_n_node_samples = weighted_n_node_rows * weighted_n_node_cols`. -/
def RegressionCriterionGSO.init (y : ℕ → ℕ → ℚ)
    (row_weights col_weights : Option (ℕ → ℚ))
    (row_indices col_indices : ℕ → ℕ)
    (start_row end_row start_col end_col : ℕ) : GSOInitState :=
  let s0 : GSOInitState :=
    { y_row_sums := fun _ => 0
      y_col_sums := fun _ => 0
      sum_total := 0
      sq_sum_total := 0
      weighted_n_node_rows :=
        if row_weights.isSome then 0 else ((end_row - start_row : ℕ) : ℚ)
      weighted_n_node_cols :=
        if col_weights.isSome then 0 else ((end_col - start_col : ℕ) : ℚ)
      weighted_n_node_samples := 0 }
  let s := (List.range' start_row (end_row - start_row)).foldl
    (gsoOuterStep y row_indices col_indices row_weights col_weights
      start_col (end_col - start_col) start_row) s0
  { s with weighted_n_node_samples :=
      s.weighted_n_node_rows * s.weighted_n_node_cols }

/-- `SquaredErrorGSO.node_impurity` (lines 315-328):
`sq_sum_total / weighted_n_node_samples -
(sum_total / weighted_n_node_samples)^2`. -/
def SquaredErrorGSO.node_impurity (s : GSOInitState) : ℚ :=
  s.sq_sum_total / s.weighted_n_node_samples
    - (s.sum_total / s.weighted_n_node_samples) ^ 2

section GSOLemmas

variable (y : ℕ → ℕ → ℚ) (row_indices col_indices : ℕ → ℕ)
variable (row_weights col_weights : Option (ℕ → ℚ))

lemma gsoInnerStep_sum_total (i : ℕ) (wi : ℚ) (b : Bool) (s : GSOInitState)
    (q : ℕ) :
    (gsoInnerStep y col_indices col_weights i wi b s q).sum_total
      = s.sum_total
        + wi * wOf col_weights (col_indices q) * y i (col_indices q) := by
  unfold gsoInnerStep
  cases b <;> cases col_weights <;> simp [wOf]

lemma gsoInnerStep_sq_sum_total (i : ℕ) (wi : ℚ) (b : Bool) (s : GSOInitState)
    (q : ℕ) :
    (gsoInnerStep y col_indices col_weights i wi b s q).sq_sum_total
      = s.sq_sum_total
        + wi * wOf col_weights (col_indices q) * y i (col_indices q)
          * y i (col_indices q) := by
  unfold gsoInnerStep
  cases b <;> cases col_weights <;> simp [wOf]

lemma gsoInnerStep_row_self (i : ℕ) (wi : ℚ) (b : Bool) (s : GSOInitState)
    (q : ℕ) :
    (gsoInnerStep y col_indices col_weights i wi b s q).y_row_sums i
      = s.y_row_sums i + wOf col_weights (col_indices q) * y i (col_indices q) := by
  unfold gsoInnerStep
  cases b <;> cases col_weights <;> simp [wOf]

lemma gsoInnerStep_row_frame (i : ℕ) (wi : ℚ) (b : Bool) (s : GSOInitState)
    (q : ℕ) (i' : ℕ) (h : i' ≠ i) :
    (gsoInnerStep y col_indices col_weights i wi b s q).y_row_sums i'
      = s.y_row_sums i' := by
  unfold gsoInnerStep
  cases b <;> cases col_weights <;> simp [wOf, Function.update_noteq h]

lemma gsoInnerStep_col_self (i : ℕ) (wi : ℚ) (b : Bool) (s : GSOInitState)
    (q : ℕ) :
    (gsoInnerStep y col_indices col_weights i wi b s q).y_col_sums
        (col_indices q)
      = (if b then 0 else s.y_col_sums (col_indices q))
        + wi * y i (col_indices q) := by
  unfold gsoInnerStep
  cases b <;> cases col_weights <;> simp [wOf]

lemma gsoInnerStep_col_frame (i : ℕ) (wi : ℚ) (b : Bool) (s : GSOInitState)
    (q : ℕ) (j : ℕ) (h : col_indices q ≠ j) :
    (gsoInnerStep y col_indices col_weights i wi b s q).y_col_sums j
      = s.y_col_sums j := by
  unfold gsoInnerStep
  cases b <;> cases col_weights <;>
    simp [wOf, Function.update_noteq (Ne.symm h)]

lemma gsoInnerStep_wnr (i : ℕ) (wi : ℚ) (b : Bool) (s : GSOInitState)
    (q : ℕ) :
    (gsoInnerStep y col_indices col_weights i wi b s q).weighted_n_node_rows
      = s.weighted_n_node_rows := by
  unfold gsoInnerStep
  cases b <;> cases col_weights <;> simp [wOf]

lemma gsoInnerStep_wnc_none (i : ℕ) (wi : ℚ) (b : Bool) (s : GSOInitState)
    (q : ℕ) :
    (gsoInnerStep y col_indices none i wi b s q).weighted_n_node_cols
      = s.weighted_n_node_cols := by
  unfold gsoInnerStep
  cases b <;> simp [wOf]

end GSOLemmas

section GSOFold

variable (y : ℕ → ℕ → ℚ) (row_indices col_indices : ℕ → ℕ)
variable (row_weights col_weights : Option (ℕ → ℚ))

lemma gsoInner_foldl_sum_total (i : ℕ) (wi : ℚ) (b : Bool) (Q : List ℕ)
    (s : GSOInitState) :
    (Q.foldl (gsoInnerStep y col_indices col_weights i wi b) s).sum_total
      = s.sum_total
        + (Q.map fun q =>
            wi * wOf col_weights (col_indices q) * y i (col_indices q)).sum := by
  induction Q generalizing s with
  | nil => simp
  | cons q Q ih =>
      simp only [List.foldl_cons, List.map_cons, List.sum_cons, ih,
        gsoInnerStep_sum_total]
      ring

lemma gsoInner_foldl_sq_sum_total (i : ℕ) (wi : ℚ) (b : Bool) (Q : List ℕ)
    (s : GSOInitState) :
    (Q.foldl (gsoInnerStep y col_indices col_weights i wi b) s).sq_sum_total
      = s.sq_sum_total
        + (Q.map fun q =>
            wi * wOf col_weights (col_indices q) * y i (col_indices q)
              * y i (col_indices q)).sum := by
  induction Q generalizing s with
  | nil => simp
  | cons q Q ih =>
      simp only [List.foldl_cons, List.map_cons, List.sum_cons, ih,
        gsoInnerStep_sq_sum_total]
      ring

lemma gsoInner_foldl_row_self (i : ℕ) (wi : ℚ) (b : Bool) (Q : List ℕ)
    (s : GSOInitState) :
    (Q.foldl (gsoInnerStep y col_indices col_weights i wi b) s).y_row_sums i
      = s.y_row_sums i
        + (Q.map fun q =>
            wOf col_weights (col_indices q) * y i (col_indices q)).sum := by
  induction Q generalizing s with
  | nil => simp
  | cons q Q ih =>
      simp only [List.foldl_cons, List.map_cons, List.sum_cons, ih,
        gsoInnerStep_row_self]
      ring

lemma gsoInner_foldl_row_frame (i : ℕ) (wi : ℚ) (b : Bool) (Q : List ℕ)
    (s : GSOInitState) (i' : ℕ) (h : i' ≠ i) :
    (Q.foldl (gsoInnerStep y col_indices col_weights i wi b) s).y_row_sums i'
      = s.y_row_sums i' := by
  induction Q generalizing s with
  | nil => simp
  | cons q Q ih =>
      simp only [List.foldl_cons, ih, gsoInnerStep_row_frame _ _ _ _ _ _ _ _ _ h]

lemma gsoInner_foldl_col_frame (i : ℕ) (wi : ℚ) (b : Bool) (Q : List ℕ)
    (s : GSOInitState) (j : ℕ) (h : ∀ q ∈ Q, col_indices q ≠ j) :
    (Q.foldl (gsoInnerStep y col_indices col_weights i wi b) s).y_col_sums j
      = s.y_col_sums j := by
  induction Q generalizing s with
  | nil => simp
  | cons q Q ih =>
      rw [List.foldl_cons, ih _ fun q' hq' => h q' (List.mem_cons_of_mem _ hq'),
        gsoInnerStep_col_frame _ _ _ _ _ _ _ _ _ (h q (List.mem_cons_self q Q))]

lemma gsoInner_foldl_col_self (i : ℕ) (wi : ℚ) (b : Bool) (Q : List ℕ)
    (s : GSOInitState)
    (hQ : Q.Pairwise fun a b => col_indices a ≠ col_indices b)
    (q : ℕ) (hq : q ∈ Q) :
    (Q.foldl (gsoInnerStep y col_indices col_weights i wi b) s).y_col_sums
        (col_indices q)
      = (if b then 0 else s.y_col_sums (col_indices q))
        + wi * y i (col_indices q) := by
  induction Q generalizing s with
  | nil => cases hq
  | cons q0 Q ih =>
      rcases List.mem_cons.mp hq with h | h
      · subst h
        rw [List.foldl_cons,
          gsoInner_foldl_col_frame _ _ _ _ _ _ _ _ _
            fun q' hq' => Ne.symm ((List.pairwise_cons.mp hQ).1 q' hq'),
          gsoInnerStep_col_self]
      · rw [List.foldl_cons,
          ih _ (List.pairwise_cons.mp hQ).2 h,
          gsoInnerStep_col_frame _ _ _ _ _ _ _ _ _
            (Ne.symm ((List.pairwise_cons.mp hQ).1 q h)).symm]

lemma gsoInner_foldl_wnr (i : ℕ) (wi : ℚ) (b : Bool) (Q : List ℕ)
    (s : GSOInitState) :
    (Q.foldl (gsoInnerStep y col_indices col_weights i wi b)
        s).weighted_n_node_rows
      = s.weighted_n_node_rows := by
  induction Q generalizing s with
  | nil => simp
  | cons q Q ih => rw [List.foldl_cons, ih, gsoInnerStep_wnr]

lemma gsoInner_foldl_wnc_none (i : ℕ) (wi : ℚ) (b : Bool) (Q : List ℕ)
    (s : GSOInitState) :
    (Q.foldl (gsoInnerStep y col_indices none i wi b)
        s).weighted_n_node_cols
      = s.weighted_n_node_cols := by
  induction Q generalizing s with
  | nil => simp
  | cons q Q ih => rw [List.foldl_cons, ih, gsoInnerStep_wnc_none]

end GSOFold

section GSOOuter

variable (y : ℕ → ℕ → ℚ) (row_indices col_indices : ℕ → ℕ)
variable (row_weights col_weights : Option (ℕ → ℚ))
variable (start_col n_cols start_row : ℕ)

lemma gsoOuterStep_row_self (s : GSOInitState) (p : ℕ) :
    (gsoOuterStep y row_indices col_indices row_weights col_weights
        start_col n_cols start_row s p).y_row_sums (row_indices p)
      = ((List.range' start_col n_cols).map fun q =>
          wOf col_weights (col_indices q) * y (row_indices p)
            (col_indices q)).sum := by
  unfold gsoOuterStep
  cases row_weights <;>
    simp [gsoInner_foldl_row_self, Function.update_same]

lemma gsoOuterStep_row_frame (s : GSOInitState) (p : ℕ) (i' : ℕ)
    (h : i' ≠ row_indices p) :
    (gsoOuterStep y row_indices col_indices row_weights col_weights
        start_col n_cols start_row s p).y_row_sums i'
      = s.y_row_sums i' := by
  unfold gsoOuterStep
  cases row_weights <;>
    simp [gsoInner_foldl_row_frame _ _ _ _ _ _ _ _ _ h,
      Function.update_noteq h]

lemma gsoOuterStep_sum_total (s : GSOInitState) (p : ℕ) :
    (gsoOuterStep y row_indices col_indices row_weights col_weights
        start_col n_cols start_row s p).sum_total
      = s.sum_total
        + ((List.range' start_col n_cols).map fun q =>
            wOf row_weights (row_indices p) * wOf col_weights (col_indices q)
              * y (row_indices p) (col_indices q)).sum := by
  unfold gsoOuterStep
  rcases row_weights with _ | w <;>
    simp [gsoInner_foldl_sum_total, wOf]

lemma gsoOuterStep_sq_sum_total (s : GSOInitState) (p : ℕ) :
    (gsoOuterStep y row_indices col_indices row_weights col_weights
        start_col n_cols start_row s p).sq_sum_total
      = s.sq_sum_total
        + ((List.range' start_col n_cols).map fun q =>
            wOf row_weights (row_indices p) * wOf col_weights (col_indices q)
              * y (row_indices p) (col_indices q)
              * y (row_indices p) (col_indices q)).sum := by
  unfold gsoOuterStep
  rcases row_weights with _ | w <;>
    simp [gsoInner_foldl_sq_sum_total, wOf]

lemma gsoOuterStep_col (s : GSOInitState) (p : ℕ)
    (hQ : (List.range' start_col n_cols).Pairwise
      fun a b => col_indices a ≠ col_indices b)
    (q : ℕ) (hq : q ∈ List.range' start_col n_cols) :
    (gsoOuterStep y row_indices col_indices row_weights col_weights
        start_col n_cols start_row s p).y_col_sums (col_indices q)
      = (if p == start_row then 0 else s.y_col_sums (col_indices q))
        + wOf row_weights (row_indices p) * y (row_indices p)
            (col_indices q) := by
  unfold gsoOuterStep
  rcases row_weights with _ | w <;>
    simp [gsoInner_foldl_col_self _ _ _ _ _ _ _ _ hQ _ hq, wOf]

lemma gsoOuterStep_wnr_none (s : GSOInitState) (p : ℕ) :
    (gsoOuterStep y row_indices col_indices none col_weights
        start_col n_cols start_row s p).weighted_n_node_rows
      = s.weighted_n_node_rows := by
  unfold gsoOuterStep
  simp [gsoInner_foldl_wnr]

lemma gsoOuterStep_wnc_none (s : GSOInitState) (p : ℕ) :
    (gsoOuterStep y row_indices col_indices row_weights none
        start_col n_cols start_row s p).weighted_n_node_cols
      = s.weighted_n_node_cols := by
  unfold gsoOuterStep
  rcases row_weights with _ | w <;> simp [gsoInner_foldl_wnc_none]

end GSOOuter

section GSOOuterFold

variable (y : ℕ → ℕ → ℚ) (row_indices col_indices : ℕ → ℕ)
variable (row_weights col_weights : Option (ℕ → ℚ))
variable (start_col n_cols start_row : ℕ)

lemma gsoOuter_foldl_sum_total (P : List ℕ) (s : GSOInitState) :
    (P.foldl (gsoOuterStep y row_indices col_indices row_weights col_weights
        start_col n_cols start_row) s).sum_total
      = s.sum_total
        + (P.map fun p =>
            ((List.range' start_col n_cols).map fun q =>
              wOf row_weights (row_indices p) * wOf col_weights (col_indices q)
                * y (row_indices p) (col_indices q)).sum).sum := by
  induction P generalizing s with
  | nil => simp
  | cons p P ih =>
      simp only [List.foldl_cons, List.map_cons, List.sum_cons, ih,
        gsoOuterStep_sum_total]
      ring

lemma gsoOuter_foldl_sq_sum_total (P : List ℕ) (s : GSOInitState) :
    (P.foldl (gsoOuterStep y row_indices col_indices row_weights col_weights
        start_col n_cols start_row) s).sq_sum_total
      = s.sq_sum_total
        + (P.map fun p =>
            ((List.range' start_col n_cols).map fun q =>
              wOf row_weights (row_indices p) * wOf col_weights (col_indices q)
                * y (row_indices p) (col_indices q)
                * y (row_indices p) (col_indices q)).sum).sum := by
  induction P generalizing s with
  | nil => simp
  | cons p P ih =>
      simp only [List.foldl_cons, List.map_cons, List.sum_cons, ih,
        gsoOuterStep_sq_sum_total]
      ring

lemma gsoOuter_foldl_row_frame (P : List ℕ) (s : GSOInitState) (i' : ℕ)
    (h : ∀ p ∈ P, row_indices p ≠ i') :
    (P.foldl (gsoOuterStep y row_indices col_indices row_weights col_weights
        start_col n_cols start_row) s).y_row_sums i'
      = s.y_row_sums i' := by
  induction P generalizing s with
  | nil => simp
  | cons p P ih =>
      rw [List.foldl_cons,
        ih _ fun p' hp' => h p' (List.mem_cons_of_mem _ hp'),
        gsoOuterStep_row_frame _ _ _ _ _ _ _ _ _ _ _
          (Ne.symm (h p (List.mem_cons_self p P)))]

lemma gsoOuter_foldl_row_self (P : List ℕ) :
    ∀ (s : GSOInitState) (p : ℕ), p ∈ P →
      (P.foldl (gsoOuterStep y row_indices col_indices row_weights col_weights
          start_col n_cols start_row) s).y_row_sums (row_indices p)
        = ((List.range' start_col n_cols).map fun q =>
            wOf col_weights (col_indices q) * y (row_indices p)
              (col_indices q)).sum := by
  induction P with
  | nil => intro s p hp; cases hp
  | cons p0 P ih =>
      intro s p hp
      rcases List.mem_cons.mp hp with h | h
      · subst h
        by_cases hmem : ∃ p' ∈ P, row_indices p' = row_indices p
        · obtain ⟨p', hp', he⟩ := hmem
          rw [List.foldl_cons, ← he, ih _ p' hp']
        · push_neg at hmem
          rw [List.foldl_cons, gsoOuter_foldl_row_frame _ _ _ _ _ _ _ _ _ _ _ hmem,
            gsoOuterStep_row_self]
      · rw [List.foldl_cons, ih _ p h]

lemma gsoOuter_foldl_col (P : List ℕ) (s : GSOInitState)
    (hb : ∀ p ∈ P, (p == start_row) = false)
    (hQ : (List.range' start_col n_cols).Pairwise
      fun a b => col_indices a ≠ col_indices b)
    (q : ℕ) (hq : q ∈ List.range' start_col n_cols) :
    (P.foldl (gsoOuterStep y row_indices col_indices row_weights col_weights
        start_col n_cols start_row) s).y_col_sums (col_indices q)
      = s.y_col_sums (col_indices q)
        + (P.map fun p =>
            wOf row_weights (row_indices p) * y (row_indices p)
              (col_indices q)).sum := by
  induction P generalizing s with
  | nil => simp
  | cons p0 P ih =>
      rw [List.foldl_cons, List.map_cons, List.sum_cons,
        ih _ fun p' hp' => hb p' (List.mem_cons_of_mem _ hp'),
        gsoOuterStep_col _ _ _ _ _ _ _ _ _ _ hQ _ hq,
        hb p0 (List.mem_cons_self p0 P)]
      simp [add_assoc]

lemma gsoOuter_foldl_wnr_none (P : List ℕ) (s : GSOInitState) :
    (P.foldl (gsoOuterStep y row_indices col_indices none col_weights
        start_col n_cols start_row) s).weighted_n_node_rows
      = s.weighted_n_node_rows := by
  induction P generalizing s with
  | nil => simp
  | cons p P ih => rw [List.foldl_cons, ih, gsoOuterStep_wnr_none]

lemma gsoOuter_foldl_wnc_none (P : List ℕ) (s : GSOInitState) :
    (P.foldl (gsoOuterStep y row_indices col_indices row_weights none
        start_col n_cols start_row) s).weighted_n_node_cols
      = s.weighted_n_node_cols := by
  induction P generalizing s with
  | nil => simp
  | cons p P ih => rw [List.foldl_cons, ih, gsoOuterStep_wnc_none]

end GSOOuterFold

section GSOInitLemmas

variable (y : ℕ → ℕ → ℚ) (row_indices col_indices : ℕ → ℕ)
variable (row_weights col_weights : Option (ℕ → ℚ))
variable (start_row end_row start_col end_col : ℕ)

lemma gso_init_row_sums (p : ℕ)
    (hp : p ∈ List.range' start_row (end_row - start_row)) :
    (RegressionCriterionGSO.init y row_weights col_weights row_indices
        col_indices start_row end_row start_col end_col).y_row_sums
        (row_indices p)
      = ((List.range' start_col (end_col - start_col)).map fun q =>
          wOf col_weights (col_indices q) * y (row_indices p)
            (col_indices q)).sum := by
  unfold RegressionCriterionGSO.init
  exact gsoOuter_foldl_row_self _ _ _ _ _ _ _ _ _ _ p hp

lemma gso_init_sum_total :
    (RegressionCriterionGSO.init y row_weights col_weights row_indices
        col_indices start_row end_row start_col end_col).sum_total
      = ((List.range' start_row (end_row - start_row)).map fun p =>
          ((List.range' start_col (end_col - start_col)).map fun q =>
            wOf row_weights (row_indices p) * wOf col_weights (col_indices q)
              * y (row_indices p) (col_indices q)).sum).sum := by
  unfold RegressionCriterionGSO.init
  rw [gsoOuter_foldl_sum_total]
  simp

lemma gso_init_sq_sum_total :
    (RegressionCriterionGSO.init y row_weights col_weights row_indices
        col_indices start_row end_row start_col end_col).sq_sum_total
      = ((List.range' start_row (end_row - start_row)).map fun p =>
          ((List.range' start_col (end_col - start_col)).map fun q =>
            wOf row_weights (row_indices p) * wOf col_weights (col_indices q)
              * y (row_indices p) (col_indices q)
              * y (row_indices p) (col_indices q)).sum).sum := by
  unfold RegressionCriterionGSO.init
  rw [gsoOuter_foldl_sq_sum_total]
  simp

lemma gso_init_col_sums
    (hQ : (List.range' start_col (end_col - start_col)).Pairwise
      fun a b => col_indices a ≠ col_indices b)
    (q : ℕ) (hq : q ∈ List.range' start_col (end_col - start_col)) :
    (RegressionCriterionGSO.init y row_weights col_weights row_indices
        col_indices start_row end_row start_col end_col).y_col_sums
        (col_indices q)
      = ((List.range' start_row (end_row - start_row)).map fun p =>
          wOf row_weights (row_indices p) * y (row_indices p)
            (col_indices q)).sum := by
  unfold RegressionCriterionGSO.init
  rcases hn : end_row - start_row with _ | k
  · simp
  · rw [List.range'_succ]
    simp only [List.foldl_cons, List.map_cons, List.sum_cons]
    rw [gsoOuter_foldl_col _ _ _ _ _ _ _ _ _ _
        (fun p hp => by
          have h1 := (List.mem_range'_1.mp hp).1
          simp only [beq_eq_false_iff_ne]
          omega)
        hQ _ hq,
      gsoOuterStep_col _ _ _ _ _ _ _ _ _ _ hQ _ hq]
    simp

lemma gso_init_wnr_none :
    (RegressionCriterionGSO.init y none col_weights row_indices
        col_indices start_row end_row start_col end_col).weighted_n_node_rows
      = ((end_row - start_row : ℕ) : ℚ) := by
  unfold RegressionCriterionGSO.init
  rw [gsoOuter_foldl_wnr_none]
  simp

lemma gso_init_wnc_none :
    (RegressionCriterionGSO.init y row_weights none row_indices
        col_indices start_row end_row start_col end_col).weighted_n_node_cols
      = ((end_col - start_col : ℕ) : ℚ) := by
  unfold RegressionCriterionGSO.init
  rw [gsoOuter_foldl_wnc_none]
  simp

lemma gso_init_wns :
    (RegressionCriterionGSO.init y row_weights col_weights row_indices
        col_indices start_row end_row start_col
        end_col).weighted_n_node_samples
      = (RegressionCriterionGSO.init y row_weights col_weights row_indices
          col_indices start_row end_row start_col
          end_col).weighted_n_node_rows
        * (RegressionCriterionGSO.init y row_weights col_weights row_indices
          col_indices start_row end_row start_col
          end_col).weighted_n_node_cols := by
  unfold RegressionCriterionGSO.init
  simp

end GSOInitLemmas

/-- The 3x3 target matrix `[[1,2,3],[4,5,6],[7,8,9]]` of the claim C2
example (zero outside the rectangle, which `init` never reads). -/
def yEx : ℕ → ℕ → ℚ
  | 0, 0 => 1
  | 0, 1 => 2
  | 0, 2 => 3
  | 1, 0 => 4
  | 1, 1 => 5
  | 1, 2 => 6
  | 2, 0 => 7
  | 2, 1 => 8
  | 2, 2 => 9
  | _, _ => 0

/-- The GSO statistics of the claim C2 example: a 3x3 node with identity
index arrays and absent (all-ones) row and column weights. -/
def gsoExampleInit : GSOInitState :=
  RegressionCriterionGSO.init yEx none none id id 0 3 0 3

lemma range3 : List.range' 0 (3 - 0) = [0, 1, 2] := rfl

/-- Claim C2: on the literal 3x3 all-ones-weight node with
`Y = [[1,2,3],[4,5,6],[7,8,9]]`, `init` computes
`y_row_sums = [6,15,24]`, `y_col_sums = [12,15,18]`, `sum_total = 45`,
`sq_sum_total = 285`, and `SquaredErrorGSO.node_impurity` returns
`285/9 - (45/9)^2`; in general (for column index arrays without repeated
entities in the node range), `init` computes `y_row_sums[i]` as the
column-weighted sum of `Y` over the node columns, `y_col_sums[j]` as the
row-weighted sum over the node rows, and the doubly-weighted grand total
and square total over the rectangle. -/
theorem C2_gso_init_marginals :
    (gsoExampleInit.y_row_sums 0 = 6
      ∧ gsoExampleInit.y_row_sums 1 = 15
      ∧ gsoExampleInit.y_row_sums 2 = 24
      ∧ gsoExampleInit.y_col_sums 0 = 12
      ∧ gsoExampleInit.y_col_sums 1 = 15
      ∧ gsoExampleInit.y_col_sums 2 = 18
      ∧ gsoExampleInit.sum_total = 45
      ∧ gsoExampleInit.sq_sum_total = 285
      ∧ SquaredErrorGSO.node_impurity gsoExampleInit = 285/9 - (45/9)^2)
    ∧ ∀ (y : ℕ → ℕ → ℚ) (row_weights col_weights : Option (ℕ → ℚ))
        (row_indices col_indices : ℕ → ℕ)
        (start_row end_row start_col end_col : ℕ),
        ((List.range' start_col (end_col - start_col)).Pairwise
          fun a b => col_indices a ≠ col_indices b) →
        (∀ p ∈ List.range' start_row (end_row - start_row),
          (RegressionCriterionGSO.init y row_weights col_weights row_indices
              col_indices start_row end_row start_col end_col).y_row_sums
              (row_indices p)
            = ((List.range' start_col (end_col - start_col)).map fun q =>
                wOf col_weights (col_indices q)
                  * y (row_indices p) (col_indices q)).sum)
        ∧ (∀ q ∈ List.range' start_col (end_col - start_col),
          (RegressionCriterionGSO.init y row_weights col_weights row_indices
              col_indices start_row end_row start_col end_col).y_col_sums
              (col_indices q)
            = ((List.range' start_row (end_row - start_row)).map fun p =>
                wOf row_weights (row_indices p)
                  * y (row_indices p) (col_indices q)).sum)
        ∧ (RegressionCriterionGSO.init y row_weights col_weights row_indices
            col_indices start_row end_row start_col end_col).sum_total
          = ((List.range' start_row (end_row - start_row)).map fun p =>
              ((List.range' start_col (end_col - start_col)).map fun q =>
                wOf row_weights (row_indices p)
                  * wOf col_weights (col_indices q)
                  * y (row_indices p) (col_indices q)).sum).sum
        ∧ (RegressionCriterionGSO.init y row_weights col_weights row_indices
            col_indices start_row end_row start_col end_col).sq_sum_total
          = ((List.range' start_row (end_row - start_row)).map fun p =>
              ((List.range' start_col (end_col - start_col)).map fun q =>
                wOf row_weights (row_indices p)
                  * wOf col_weights (col_indices q)
                  * y (row_indices p) (col_indices q)
                  * y (row_indices p) (col_indices q)).sum).sum := by
  constructor
  · have hQ : (List.range' 0 (3 - 0)).Pairwise
        fun a b => id a ≠ id b := by decide
    have hrow : ∀ i, i ∈ List.range' 0 (3 - 0) →
        gsoExampleInit.y_row_sums i
          = ((List.range' 0 (3 - 0)).map fun q => wOf none q * yEx i q).sum := by
      intro i hi
      have h := gso_init_row_sums yEx id id none none 0 3 0 3 i hi
      simpa [id] using h
    have hcol : ∀ j, j ∈ List.range' 0 (3 - 0) →
        gsoExampleInit.y_col_sums j
          = ((List.range' 0 (3 - 0)).map fun p => wOf none p * yEx p j).sum := by
      intro j hj
      have h := gso_init_col_sums yEx id id none none 0 3 0 3 hQ j hj
      simpa [id] using h
    have hs := gso_init_sum_total yEx id id none none 0 3 0 3
    have hq := gso_init_sq_sum_total yEx id id none none 0 3 0 3
    simp only [id] at hs hq
    rw [range3] at hs hq
    norm_num [wOf, yEx] at hs hq
    refine ⟨?_, ?_, ?_, ?_, ?_, ?_, hs, hq, ?_⟩
    · rw [hrow 0 (by decide), range3]; norm_num [wOf, yEx]
    · rw [hrow 1 (by decide), range3]; norm_num [wOf, yEx]
    · rw [hrow 2 (by decide), range3]; norm_num [wOf, yEx]
    · rw [hcol 0 (by decide), range3]; norm_num [wOf, yEx]
    · rw [hcol 1 (by decide), range3]; norm_num [wOf, yEx]
    · rw [hcol 2 (by decide), range3]; norm_num [wOf, yEx]
    · unfold gsoExampleInit
      unfold SquaredErrorGSO.node_impurity
      rw [gso_init_wns, gso_init_wnr_none, gso_init_wnc_none, hs, hq]
      norm_num
  · intro y row_weights col_weights row_indices col_indices sr er sc ec hQ
    exact ⟨fun p hp => gso_init_row_sums y row_indices col_indices
        row_weights col_weights sr er sc ec p hp,
      fun q hq => gso_init_col_sums y row_indices col_indices
        row_weights col_weights sr er sc ec hQ q hq,
      gso_init_sum_total y row_indices col_indices
        row_weights col_weights sr er sc ec,
      gso_init_sq_sum_total y row_indices col_indices
        row_weights col_weights sr er sc ec⟩

/-- A weighted 2x2 target matrix used by the C2 witness. -/
def yEx2 : ℕ → ℕ → ℚ
  | 0, 0 => 1
  | 0, 1 => 2
  | 1, 0 => 3
  | 1, 1 => 4
  | _, _ => 0

/-- Row weights of the C2 witness. -/
def rowWEx : ℕ → ℚ := fun i => if i = 0 then 2 else 1

/-- Column weights of the C2 witness. -/
def colWEx : ℕ → ℚ := fun j => if j = 0 then 1 else 3

/-- Witness for C2: the general part of the theorem applied to a concrete
weighted 2x2 node. -/
theorem C2_gso_init_marginals_witness :
    (RegressionCriterionGSO.init yEx2 (some rowWEx) (some colWEx)
        id id 0 2 0 2).y_row_sums 0 = 7
      ∧ (RegressionCriterionGSO.init yEx2 (some rowWEx) (some colWEx)
        id id 0 2 0 2).y_col_sums 1 = 8
      ∧ (RegressionCriterionGSO.init yEx2 (some rowWEx) (some colWEx)
        id id 0 2 0 2).sum_total = 29 := by
  have h := C2_gso_init_marginals.2 yEx2 (some rowWEx) (some colWEx)
    id id 0 2 0 2 (by decide)
  obtain ⟨hrow, hcol, hsum, _⟩ := h
  have h1 := hrow 0 (by decide)
  have h2 := hcol 1 (by decide)
  simp only [id] at h1 h2 hsum
  have hr2 : List.range' 0 (2 - 0) = [0, 1] := rfl
  rw [hr2] at h1 h2 hsum
  norm_num [wOf, yEx2, rowWEx, colWEx] at h1 h2 hsum
  exact ⟨h1, h2, hsum⟩
